import Mathlib

/-!
Verification development for the thn-gastos extraction pipeline.

The repository extracts structured records from photographed expense forms
with a vision language model.  The decisive program logic lives in

  * the pydantic output schemas (`ReceiptSchema` in app.py, `RendicionSchema`,
    `GastoItem`, `ViaticoItem`, `ChoferInfo`, `ChoferMatchSchema`,
    `CategoriaGasto` in app_rendicion.py): `with_structured_output` validates
    the model's JSON against them, raising on a missing/null required field or
    an out-of-enum value, which aborts the graph run;
  * the graph nodes `analyze_node` and `identify_chofer_node` and the
    `StateGraph` wiring in app.py / app2.py / app_rendicion.py;
  * the system prompts, which carry the normalization rules (date expansion,
    country to currency table, category mapping, matrix extraction of the
    GASTOS GENERALES grid) executed by the model;
  * the `/analyze-rendicion` endpoint in api.py, which substitutes today's
    date when the pipeline returned `fecha = null`.

We embed those pieces shallowly: pydantic validation becomes an
`Except String`-valued checker over raw (nullable) model output, each graph
node becomes a pure function parameterised by the outcomes of its external
calls, float amounts become `ℚ`, and the prompt-specified normalization rules
become executable functions transcribed from the prompt text.
-/

namespace ThnGastos

/-- The closed expense taxonomy `CategoriaGasto` of app_rendicion.py
(lines 21-31): nine string-valued enum members. -/
inductive CategoriaGasto where
  | PEAJE
  | MIGRAC
  | ADUANA
  | TUNEL
  | REPRESEN
  | SENASA
  | ISCAMEN
  | GOMERIA
  | VARIOS
deriving DecidableEq, Repr

/-- The nine taxonomy members as a list, in declaration order. -/
def taxonomy : List CategoriaGasto :=
  [CategoriaGasto.PEAJE, CategoriaGasto.MIGRAC, CategoriaGasto.ADUANA,
   CategoriaGasto.TUNEL, CategoriaGasto.REPRESEN, CategoriaGasto.SENASA,
   CategoriaGasto.ISCAMEN, CategoriaGasto.GOMERIA, CategoriaGasto.VARIOS]

/-- Pydantic coercion of a string into the `CategoriaGasto` enum: it succeeds
exactly on the nine member values and fails on anything else. -/
def parseCategoria (s : String) : Option CategoriaGasto :=
  if s = "PEAJE" then some CategoriaGasto.PEAJE
  else if s = "MIGRAC" then some CategoriaGasto.MIGRAC
  else if s = "ADUANA" then some CategoriaGasto.ADUANA
  else if s = "TUNEL" then some CategoriaGasto.TUNEL
  else if s = "REPRESEN" then some CategoriaGasto.REPRESEN
  else if s = "SENASA" then some CategoriaGasto.SENASA
  else if s = "ISCAMEN" then some CategoriaGasto.ISCAMEN
  else if s = "GOMERIA" then some CategoriaGasto.GOMERIA
  else if s = "VARIOS" then some CategoriaGasto.VARIOS
  else none

/-- The category mapping rule of the app_rendicion.py SYSTEM_PROMPT
(lines 144-158): a column label equal to a taxonomy member maps to itself;
the known aliases "REPRESENTACIÓN" and "REPRESEN." map to REPRESEN; any label
with no clear match maps to the fallback VARIOS. -/
def categoriaMap (label : String) : CategoriaGasto :=
  match parseCategoria label with
  | some c => c
  | none =>
      if label = "REPRESENTACIÓN" then CategoriaGasto.REPRESEN
      else if label = "REPRESEN." then CategoriaGasto.REPRESEN
      else CategoriaGasto.VARIOS

/-- `GastoItem` of app_rendicion.py: all three fields required.  The float
`monto` is embedded as a rational. -/
structure GastoItem where
  categoria : CategoriaGasto
  monto : ℚ
  pais : String
deriving DecidableEq, Repr

/-- `ViaticoItem` of app_rendicion.py: both fields required. -/
structure ViaticoItem where
  monto : ℚ
  pais : String
deriving DecidableEq, Repr

/-- `ChoferInfo` of app_rendicion.py: both fields required. -/
structure ChoferInfo where
  nombre_completo : String
  user_id : String
deriving DecidableEq, Repr

/-- `ChoferMatchSchema` of app_rendicion.py: the structured output of the
driver-matching model call. -/
structure ChoferMatchSchema where
  chofer : ChoferInfo
deriving DecidableEq, Repr

/-- `RendicionSchema` of app_rendicion.py (lines 49-55), which is also the
shape of the `result` dict the graph threads between nodes
(`parsed.model_dump()`): `chofer` is required, `numero_op`, `fecha` and
`chofer_info` are optional-null, `gastos` and `viaticos` default to `[]`. -/
structure RendicionSchema where
  numero_op : Option String
  fecha : Option String
  chofer : String
  gastos : List GastoItem
  viaticos : List ViaticoItem
  chofer_info : Option ChoferInfo
deriving DecidableEq, Repr

/-- One row of the Supabase `drivers_info` table
(`select("nombre_completo, user_id")`). -/
structure DriverEntry where
  nombre_completo : String
  user_id : String
deriving DecidableEq, Repr

/-- `ReceiptSchema` of app.py (lines 18-42): `date` and `total` required,
the rest optional-null, `keywords` defaulting to `[]`. -/
structure ReceiptSchema where
  referencia : Option String
  razon_social : Option String
  date : String
  total : ℚ
  moneda : Option String
  descripcion : Option String
  identificador_fiscal : Option String
  keywords : List String
deriving DecidableEq, Repr

/-- Raw model output for a receipt, before pydantic validation: every field
may come back null/absent (`none`). -/
structure RawReceipt where
  referencia : Option String
  razon_social : Option String
  date : Option String
  total : Option ℚ
  moneda : Option String
  descripcion : Option String
  identificador_fiscal : Option String
  keywords : Option (List String)
deriving DecidableEq, Repr

/-- Raw model output for one gasto entry, before validation. -/
structure RawGasto where
  categoria : Option String
  monto : Option ℚ
  pais : Option String
deriving DecidableEq, Repr

/-- Raw model output for one viatico entry, before validation. -/
structure RawViatico where
  monto : Option ℚ
  pais : Option String
deriving DecidableEq, Repr

/-- Raw model output for the optional chofer info, before validation. -/
structure RawChoferInfo where
  nombre_completo : Option String
  user_id : Option String
deriving DecidableEq, Repr

/-- Raw model output for a rendicion, before pydantic validation. -/
structure RawRendicion where
  numero_op : Option String
  fecha : Option String
  chofer : Option String
  gastos : Option (List RawGasto)
  viaticos : Option (List RawViatico)
  chofer_info : Option RawChoferInfo
deriving DecidableEq, Repr

/-- Pydantic validation of `ReceiptSchema` as performed by
`llm.with_structured_output(ReceiptSchema)` in app.py: the required fields
`date` and `total` must be non-null, otherwise validation raises (embedded
as `Except.error`); absent `keywords` defaults to `[]`. -/
def validateReceipt (raw : RawReceipt) : Except String ReceiptSchema :=
  match raw.date, raw.total with
  | some d, some t =>
      Except.ok ⟨raw.referencia, raw.razon_social, d, t, raw.moneda,
        raw.descripcion, raw.identificador_fiscal, raw.keywords.getD []⟩
  | none, _ => Except.error "validation error: date is required"
  | _, none => Except.error "validation error: total is required"

/-- Pydantic validation of one `GastoItem`: `categoria`, `monto`, `pais` are
all required, and `categoria` must coerce into the `CategoriaGasto` enum. -/
def validateGasto (rg : RawGasto) : Except String GastoItem :=
  match rg.categoria, rg.monto, rg.pais with
  | some c, some m, some p =>
      match parseCategoria c with
      | some cat => Except.ok ⟨cat, m, p⟩
      | none => Except.error ("validation error: categoria is not a valid CategoriaGasto: " ++ c)
  | _, _, _ => Except.error "validation error: gasto field required"

/-- Pydantic validation of a list of gastos: element-wise, first error wins. -/
def validateGastos : List RawGasto → Except String (List GastoItem)
  | [] => Except.ok []
  | rg :: rest =>
      match validateGasto rg with
      | Except.error e => Except.error e
      | Except.ok g =>
          match validateGastos rest with
          | Except.error e => Except.error e
          | Except.ok gs => Except.ok (g :: gs)

/-- Pydantic validation of one `ViaticoItem`: both fields required. -/
def validateViatico (rv : RawViatico) : Except String ViaticoItem :=
  match rv.monto, rv.pais with
  | some m, some p => Except.ok ⟨m, p⟩
  | _, _ => Except.error "validation error: viatico field required"

/-- Pydantic validation of a list of viaticos. -/
def validateViaticos : List RawViatico → Except String (List ViaticoItem)
  | [] => Except.ok []
  | rv :: rest =>
      match validateViatico rv with
      | Except.error e => Except.error e
      | Except.ok v =>
          match validateViaticos rest with
          | Except.error e => Except.error e
          | Except.ok vs => Except.ok (v :: vs)

/-- Pydantic validation of `ChoferInfo`: both fields required. -/
def validateChoferInfo (rc : RawChoferInfo) : Except String ChoferInfo :=
  match rc.nombre_completo, rc.user_id with
  | some n, some u => Except.ok ⟨n, u⟩
  | _, _ => Except.error "validation error: chofer_info field required"

/-- Pydantic validation of `RendicionSchema` as performed by
`llm.with_structured_output(RendicionSchema)` in app_rendicion.py: `chofer`
is required and must be non-null; `gastos` and `viaticos` default to `[]`
when absent and are validated element-wise; `numero_op`, `fecha` and
`chofer_info` may be null. -/
def validateRendicion (raw : RawRendicion) : Except String RendicionSchema :=
  match raw.chofer with
  | none => Except.error "validation error: chofer is required"
  | some chofer =>
      match validateGastos (raw.gastos.getD []) with
      | Except.error e => Except.error e
      | Except.ok gastos =>
          match validateViaticos (raw.viaticos.getD []) with
          | Except.error e => Except.error e
          | Except.ok viaticos =>
              match raw.chofer_info with
              | none =>
                  Except.ok ⟨raw.numero_op, raw.fecha, chofer, gastos, viaticos, none⟩
              | some rci =>
                  match validateChoferInfo rci with
                  | Except.error e => Except.error e
                  | Except.ok ci =>
                      Except.ok ⟨raw.numero_op, raw.fecha, chofer, gastos, viaticos, some ci⟩

/-- `identify_chofer_node` of app_rendicion.py (lines 264-316), instrumented
with a flag recording whether the driver-matching model was invoked.  External
calls are passed in as parameters: `fetch` is the outcome of the Supabase
`drivers_info` query (NOT wrapped in the try/except, so its error propagates),
and `m` is the outcome of `chofer_match_llm.invoke` given the fetched drivers
and the extracted name (its error IS caught, returning the state unchanged).
An empty extracted `chofer` (falsy string) or an empty drivers list returns
the state unchanged before the matching model is reached. -/
def identify_chofer_nodeI
    (fetch : Except String (List DriverEntry))
    (m : List DriverEntry → String → Except String ChoferMatchSchema)
    (r : RendicionSchema) : Except String RendicionSchema × Bool :=
  if r.chofer = "" then (Except.ok r, false)
  else
    match fetch with
    | Except.error e => (Except.error e, false)
    | Except.ok drivers =>
        if drivers.isEmpty then (Except.ok r, false)
        else
          match m drivers r.chofer with
          | Except.ok matched =>
              (Except.ok { r with chofer_info := some matched.chofer }, true)
          | Except.error _ => (Except.ok r, true)

/-- `identify_chofer_node` proper: the record-level outcome of the
instrumented node. -/
def identify_chofer_node
    (fetch : Except String (List DriverEntry))
    (m : List DriverEntry → String → Except String ChoferMatchSchema)
    (r : RendicionSchema) : Except String RendicionSchema :=
  (identify_chofer_nodeI fetch m r).1

/-- One run of the compiled app_rendicion.py graph
(`analyze` then `identify_chofer` then END): `raw` is the structured output
returned by the vision model in `analyze_node`; it is validated against
`RendicionSchema`, and a validation failure aborts the run.  On success the
record flows into `identify_chofer_node`, whose output is the run's output. -/
def rendicionRun (raw : RawRendicion)
    (fetch : Except String (List DriverEntry))
    (m : List DriverEntry → String → Except String ChoferMatchSchema) :
    Except String RendicionSchema :=
  match validateRendicion raw with
  | Except.error e => Except.error e
  | Except.ok rec => identify_chofer_node fetch m rec

/-- One run of the compiled app.py graph (`analyze` then END): the vision
model's raw output is validated against `ReceiptSchema`; a validation failure
aborts the run, otherwise the validated record is the run's output. -/
def receiptRun (raw : RawReceipt) : Except String ReceiptSchema :=
  validateReceipt raw

-- ---------- Graph wiring ----------

/-- Node names appearing in the three `StateGraph` constructions, plus the
langgraph END sentinel. -/
inductive NodeName where
  | analyze
  | identify_chofer
  | END
deriving DecidableEq, Repr

/-- Edges of the app_rendicion.py graph (lines 319-327):
`analyze` to `identify_chofer` to END. -/
def rendicion_edges : List (NodeName × NodeName) :=
  [(NodeName.analyze, NodeName.identify_chofer),
   (NodeName.identify_chofer, NodeName.END)]

/-- Entry point of the app_rendicion.py graph (`set_entry_point("analyze")`). -/
def rendicion_entry : NodeName := NodeName.analyze

/-- Edges of the app.py (Receipt) graph (lines 141-147): `analyze` to END. -/
def receipt_edges : List (NodeName × NodeName) :=
  [(NodeName.analyze, NodeName.END)]

/-- Entry point of the app.py graph. -/
def receipt_entry : NodeName := NodeName.analyze

/-- Edges of the app2.py (FuelDelivery) graph (lines 131-137): `analyze` to
END. -/
def remito_edges : List (NodeName × NodeName) :=
  [(NodeName.analyze, NodeName.END)]

/-- Entry point of the app2.py graph. -/
def remito_entry : NodeName := NodeName.analyze

/-- All successors of a node in an edge list. -/
def successors (edges : List (NodeName × NodeName)) (n : NodeName) : List NodeName :=
  (edges.filter (fun e => e.1 = n)).map Prod.snd

/-- Follow the unique successor chain from `start` for at most `fuel` steps;
stops when a node has zero or several successors. -/
def chainFrom (edges : List (NodeName × NodeName)) : Nat → NodeName → List NodeName
  | 0, n => [n]
  | fuel + 1, n =>
      match successors edges n with
      | [mnext] => n :: chainFrom edges fuel mnext
      | _ => [n]

-- ---------- Prompt-specified normalization rules ----------

/-- Zero-pad a day or month number to two digits, as required by the date
rules of the app_rendicion.py SYSTEM_PROMPT and by strftime %d/%m. -/
def pad2 (n : Nat) : String :=
  if n < 10 then "0" ++ toString n else toString n

/-- strftime("%d/%m/%Y") as used in analyze_node and api.py. -/
def formatDdMmYyyy (d m y : Nat) : String :=
  pad2 d ++ "/" ++ pad2 m ++ "/" ++ toString y

/-- Year-expansion rule of the app_rendicion.py SYSTEM_PROMPT (lines 107-124):
a two-digit year is expanded to four digits in the current century
("24/11/25" becomes 2025), and a date with no year at all takes the current
year supplied in the model context (`anio_actual`, computed from
`datetime.now()` in `analyze_node` at the moment of the run). -/
def expandYear (anioActual : Nat) (y : Option Nat) : Nat :=
  match y with
  | none => anioActual
  | some yy => if yy < 100 then 2000 + yy else yy

/-- The full date-normalization rule of the SYSTEM_PROMPT: zero-pad the day
and month, expand the year, output dd/MM/yyyy.  The current year is an
explicit input, exactly as `analyze_node` passes `anio_actual` into the
model's context rather than letting the normalizer read a clock. -/
def normalizeFecha (anioActual d m : Nat) (y : Option Nat) : String :=
  formatDdMmYyyy d m (expandYear anioActual y)

/-- Country-to-currency table of the app.py SYSTEM_PROMPT (lines 85-90) for
the optional `moneda` field: five fixed entries, anything else null. -/
def monedaForPais (pais : String) : Option String :=
  if pais = "Chile" then some "CLP"
  else if pais = "Argentina" then some "ARS"
  else if pais = "Brasil" then some "BRL"
  else if pais = "Perú" then some "PEN"
  else if pais = "Paraguay" then some "PYG"
  else none

/-- One cell of the GASTOS GENERALES grid: row gives the country, column
gives the category label, and the cell is either empty (`none`) or holds a
numeric amount. -/
structure Cell where
  pais : String
  categoria : String
  value : Option ℚ
deriving DecidableEq, Repr

/-- Matrix-extraction rule of the app_rendicion.py SYSTEM_PROMPT
(lines 132-168, 196): every cell with a numeric value becomes one gasto entry
whose categoria is the mapped column label, monto the cell value and pais the
row label; a cell that is empty or 0 is not included in the list. -/
def extractGastos (cells : List Cell) : List GastoItem :=
  cells.filterMap fun c =>
    match c.value with
    | none => none
    | some v => if v = 0 then none else some ⟨categoriaMap c.categoria, v, c.pais⟩

-- ---------- The /analyze-rendicion endpoint (api.py) ----------

/-- The fecha substitution of api.py `analyze_rendicion` (lines 124-129):
if the pipeline's record has `fecha = null`, replace it by today's date
(already formatted dd/MM/yyyy); otherwise leave the record alone. -/
def fillFecha (today : String) (r : RendicionSchema) : RendicionSchema :=
  match r.fecha with
  | none => { r with fecha := some today }
  | some _ => r

/-- The `/analyze-rendicion` endpoint of api.py (lines 102-139): on a
pipeline error it re-raises as an HTTP 500 detail string; on success it
applies the fecha substitution and returns the record. -/
def analyze_rendicion (today : String)
    (pipeline : Except String RendicionSchema) : Except String RendicionSchema :=
  match pipeline with
  | Except.error e => Except.error ("Error al procesar la imagen: " ++ e)
  | Except.ok r => Except.ok (fillFecha today r)

-- ---------- Theorems ----------

/-- C1: a required field returned as null by the model (`date` or `total` for
a Receipt, `chofer` for a ReconciliationSheet) makes pydantic validation
fail, and a validation failure aborts the whole rendicion run: the run never
completes successfully with the null silently accepted. -/
theorem required_null_extraction_failure :
    (∀ raw : RawReceipt, raw.date = none ∨ raw.total = none →
      ∃ e, receiptRun raw = Except.error e) ∧
    (∀ raw : RawRendicion, raw.chofer = none →
      ∃ e, validateRendicion raw = Except.error e) ∧
    (∀ raw fetch m e, validateRendicion raw = Except.error e →
      rendicionRun raw fetch m = Except.error e) := by
  refine ⟨?_, ?_, ?_⟩
  · rintro ⟨ref, rs, date, total, mon, des, idf, kw⟩ h
    cases date <;> cases total <;>
      simp_all [receiptRun, validateReceipt]
  · rintro ⟨nop, fec, chofer, g, v, ci⟩ h
    cases chofer <;> simp_all [validateRendicion]
  · intro raw fetch m e h
    simp [rendicionRun, h]

/-- C1 witness: a receipt whose `date` came back null is rejected. -/
theorem required_null_extraction_failure_witness :
    ∃ e, receiptRun ⟨none, none, none, some 15990, some "CLP", none, none, none⟩ =
      Except.error e :=
  required_null_extraction_failure.1 _ (Or.inl rfl)

/-- C3: when the extracted chofer name is empty or the fetched drivers
directory is empty, `identify_chofer_node` returns the record unchanged as a
success, and the external matching model is not invoked (flag `false`). -/
theorem identify_short_circuit :
    ∀ (fetch : Except String (List DriverEntry))
      (m : List DriverEntry → String → Except String ChoferMatchSchema)
      (r : RendicionSchema),
      (r.chofer = "" → identify_chofer_nodeI fetch m r = (Except.ok r, false)) ∧
      (fetch = Except.ok [] → identify_chofer_nodeI fetch m r = (Except.ok r, false)) := by
  intro fetch m r
  constructor
  · intro hc
    simp [identify_chofer_nodeI, hc]
  · intro hf
    subst hf
    by_cases hc : r.chofer = ""
    · simp [identify_chofer_nodeI, hc]
    · simp [identify_chofer_nodeI, hc]

/-- C3 witness: with candidate name "Juan Pérez" and an empty directory the
node returns the record unchanged without invoking the matching model. -/
theorem identify_short_circuit_witness :
    identify_chofer_nodeI (Except.ok []) (fun _ _ => Except.error "x")
        ⟨none, none, "Juan Pérez", [], [], none⟩ =
      (Except.ok ⟨none, none, "Juan Pérez", [], [], none⟩, false) :=
  (identify_short_circuit (Except.ok []) (fun _ _ => Except.error "x")
    ⟨none, none, "Juan Pérez", [], [], none⟩).2 rfl

/-- C4: each graph is a fixed linear chain with a single entry point: the
rendicion graph runs analyze then identify_chofer then END, the receipt and
fuel-delivery graphs run analyze then END, and every node has exactly the
listed successors, so no other stage order is possible. -/
theorem pipeline_linear_chain :
    chainFrom rendicion_edges 2 rendicion_entry =
      [NodeName.analyze, NodeName.identify_chofer, NodeName.END] ∧
    chainFrom receipt_edges 1 receipt_entry = [NodeName.analyze, NodeName.END] ∧
    chainFrom remito_edges 1 remito_entry = [NodeName.analyze, NodeName.END] ∧
    successors rendicion_edges NodeName.analyze = [NodeName.identify_chofer] ∧
    successors rendicion_edges NodeName.identify_chofer = [NodeName.END] ∧
    successors rendicion_edges NodeName.END = [] ∧
    successors receipt_edges NodeName.analyze = [NodeName.END] ∧
    successors receipt_edges NodeName.END = [] ∧
    successors remito_edges NodeName.analyze = [NodeName.END] ∧
    successors remito_edges NodeName.END = [] := by
  refine ⟨?_, ?_, ?_, ?_, ?_, ?_, ?_, ?_, ?_, ?_⟩ <;> rfl

/-- C2 counterexample: extraction succeeds on this raw output, yet an error
raised by the directory-fetch external call inside the Identity Resolution
stage (the Supabase query, which is outside the try/except) propagates and
fails the whole run — contradicting the claim that any external-call error in
that stage leaves the run successful. -/
theorem identify_fetch_error_fails_run :
    validateRendicion ⟨none, none, some "Juan Pérez", none, none, none⟩ =
      Except.ok ⟨none, none, "Juan Pérez", [], [], none⟩ ∧
    rendicionRun ⟨none, none, some "Juan Pérez", none, none, none⟩
        (Except.error "network error")
        (fun _ _ => Except.ok ⟨⟨"Juan Pérez", "u1"⟩⟩) =
      Except.error "network error" := by
  constructor
  · rfl
  · rfl

/-- C2 (amended): when extraction succeeds and the directory fetch succeeds,
an error raised by the external matching-model call does not fail the run:
it is caught and the run terminates successfully with the extracted record
unchanged (in particular without a resolved `chofer_info`).  An error of the
directory-fetch call itself, however, is not caught and fails the run. -/
theorem identify_match_error_non_fatal :
    ∀ (raw : RawRendicion) (rec : RendicionSchema) (drivers : List DriverEntry)
      (m : List DriverEntry → String → Except String ChoferMatchSchema) (e : String),
      validateRendicion raw = Except.ok rec →
      m drivers rec.chofer = Except.error e →
      rendicionRun raw (Except.ok drivers) m = Except.ok rec := by
  intro raw rec drivers m e hv hm
  simp only [rendicionRun, hv, identify_chofer_node, identify_chofer_nodeI]
  by_cases hc : rec.chofer = ""
  · simp [hc]
  · by_cases hd : drivers.isEmpty
    · simp [hc, hd]
    · simp [hc, hd, hm]

/-- C2 witness: a concrete run in which the matching model errors still
returns the extracted record successfully, without `chofer_info`. -/
theorem identify_match_error_non_fatal_witness :
    rendicionRun ⟨some "677524", none, some "Juan Pérez", none, none, none⟩
        (Except.ok [⟨"Juan Pérez González", "u1"⟩])
        (fun _ _ => Except.error "llm unavailable") =
      Except.ok ⟨some "677524", none, "Juan Pérez", [], [], none⟩ :=
  identify_match_error_non_fatal
    ⟨some "677524", none, some "Juan Pérez", none, none, none⟩
    ⟨some "677524", none, "Juan Pérez", [], [], none⟩
    [⟨"Juan Pérez González", "u1"⟩]
    (fun _ _ => Except.error "llm unavailable")
    "llm unavailable" rfl rfl

/-- C5: the category taxonomy is closed and the mapping total: every enum
value lies in the nine-member taxonomy, the prompt's mapper sends every label
to a taxonomy member — known aliases to REPRESEN, anything unmatched to the
fallback VARIOS, never null and never out of taxonomy — and a successfully
validated rendicion record can only carry taxonomy categorias: a gasto whose
categoria string is not an enum member fails validation. -/
theorem categoria_mapping_total :
    (∀ c : CategoriaGasto, c ∈ taxonomy) ∧
    (∀ s : String, categoriaMap s ∈ taxonomy) ∧
    (categoriaMap "REPRESENTACIÓN" = CategoriaGasto.REPRESEN ∧
      categoriaMap "REPRESEN." = CategoriaGasto.REPRESEN) ∧
    (∀ s : String, parseCategoria s = none → s ≠ "REPRESENTACIÓN" →
      s ≠ "REPRESEN." → categoriaMap s = CategoriaGasto.VARIOS) ∧
    (∀ raw rec, validateRendicion raw = Except.ok rec →
      ∀ g ∈ rec.gastos, g.categoria ∈ taxonomy) ∧
    (∀ (rg : RawGasto) (s : String), rg.categoria = some s →
      parseCategoria s = none → ∃ e, validateGasto rg = Except.error e) := by
  refine ⟨?_, ?_, ⟨rfl, rfl⟩, ?_, ?_, ?_⟩
  · intro c
    cases c <;> simp [taxonomy]
  · intro s
    cases categoriaMap s <;> simp [taxonomy]
  · intro s hp h1 h2
    simp [categoriaMap, hp, h1, h2]
  · intro raw rec _ g _
    cases hg : g.categoria <;> simp [taxonomy]
  · rintro ⟨cat, monto, pais⟩ s hc hp
    subst hc
    cases monto <;> cases pais <;> simp_all [validateGasto]

/-- C5 witness: an unmatched label maps to VARIOS, and a raw gasto carrying
an out-of-taxonomy categoria string is rejected by validation. -/
theorem categoria_mapping_total_witness :
    categoriaMap "COMBUSTIBLE" = CategoriaGasto.VARIOS ∧
    (∃ e, validateGasto ⟨some "COMBUSTIBLE", some 10, some "Chile"⟩ =
      Except.error e) :=
  ⟨categoria_mapping_total.2.2.2.1 "COMBUSTIBLE" rfl (by decide) (by decide),
   categoria_mapping_total.2.2.2.2.2 ⟨some "COMBUSTIBLE", some 10, some "Chile"⟩
     "COMBUSTIBLE" rfl rfl⟩

/-- C6: frame property of the Identity Resolution stage: whenever
`identify_chofer_node` succeeds, `numero_op`, `fecha`, `chofer`, `gastos` and
`viaticos` are exactly those of the incoming record, and the record is either
unchanged or has just `chofer_info` set; and the node is the terminal stage:
the whole run's output is exactly the node's output, so the record is never
mutated afterwards. -/
theorem identify_frame :
    (∀ (fetch : Except String (List DriverEntry))
       (m : List DriverEntry → String → Except String ChoferMatchSchema)
       (r out : RendicionSchema),
      identify_chofer_node fetch m r = Except.ok out →
      out.numero_op = r.numero_op ∧ out.fecha = r.fecha ∧ out.chofer = r.chofer ∧
      out.gastos = r.gastos ∧ out.viaticos = r.viaticos ∧
      (out = r ∨ ∃ info : ChoferInfo, out = { r with chofer_info := some info })) ∧
    (∀ raw rec fetch m, validateRendicion raw = Except.ok rec →
      rendicionRun raw fetch m = identify_chofer_node fetch m rec) := by
  constructor
  · intro fetch m r out h
    simp only [identify_chofer_node, identify_chofer_nodeI] at h
    by_cases hc : r.chofer = ""
    · simp [hc] at h
      subst h
      simp
    · simp only [hc, if_false, ite_false, if_neg, not_false_iff] at h
      cases fetch with
      | error e => simp at h
      | ok drivers =>
          by_cases hd : drivers.isEmpty
          · simp [hd] at h
            subst h
            simp
          · simp only [hd, ite_false, if_neg, not_false_iff] at h
            cases hm : m drivers r.chofer with
            | error e =>
                simp [hm] at h
                subst h
                simp
            | ok matched =>
                simp [hm] at h
                subst h
                simp
  · intro raw rec fetch m hv
    simp [rendicionRun, hv]

/-- C6 witness: a successful resolution only sets `chofer_info` on the
extracted record. -/
theorem identify_frame_witness :
    (⟨some "677524", none, "Ana", [], [], some ⟨"Ana María", "u9"⟩⟩ : RendicionSchema) =
        (⟨some "677524", none, "Ana", [], [], none⟩ : RendicionSchema) ∨
      ∃ info : ChoferInfo,
        (⟨some "677524", none, "Ana", [], [], some ⟨"Ana María", "u9"⟩⟩ : RendicionSchema) =
          { (⟨some "677524", none, "Ana", [], [], none⟩ : RendicionSchema) with
              chofer_info := some info } :=
  (identify_frame.1 (Except.ok [⟨"Ana María", "u9"⟩])
    (fun _ _ => Except.ok ⟨⟨"Ana María", "u9"⟩⟩)
    ⟨some "677524", none, "Ana", [], [], none⟩
    ⟨some "677524", none, "Ana", [], [], some ⟨"Ana María", "u9"⟩⟩ rfl).2.2.2.2.2

/-- C7: matrix extraction: the extracted gastos list is exactly one entry
per non-empty, non-zero cell of the grid (with the mapped column category,
the cell amount and the row country), zero-valued entries never appear, and
the spec's concrete grid yields exactly the single PEAJE entry. -/
theorem matrix_extraction :
    (∀ cells : List Cell,
      extractGastos cells =
        (cells.filter fun c => c.value.getD 0 ≠ 0).map
          (fun c => ⟨categoriaMap c.categoria, c.value.getD 0, c.pais⟩)) ∧
    (∀ (cells : List Cell) (g : GastoItem), g ∈ extractGastos cells → g.monto ≠ 0) ∧
    extractGastos [⟨"Chile", "PEAJE", some 50000⟩, ⟨"Chile", "GOMERIA", some 0⟩] =
      [⟨CategoriaGasto.PEAJE, 50000, "Chile"⟩] := by
  refine ⟨?_, ?_, ?_⟩
  · intro cells
    induction cells with
    | nil => rfl
    | cons c cs ih =>
        cases hv : c.value with
        | none =>
            simp [extractGastos, List.filterMap_cons, List.filter_cons, hv] at ih ⊢
            exact ih
        | some v =>
            by_cases h0 : v = 0
            · simp [extractGastos, List.filterMap_cons, List.filter_cons, hv, h0] at ih ⊢
              exact ih
            · simp [extractGastos, List.filterMap_cons, List.filter_cons, hv, h0] at ih ⊢
              exact ih
  · intro cells g hg
    simp only [extractGastos, List.mem_filterMap] at hg
    obtain ⟨c, _, hf⟩ := hg
    cases hv : c.value with
    | none => simp [hv] at hf
    | some v =>
        by_cases h0 : v = 0
        · simp [hv, h0] at hf
        · simp [hv, h0] at hf
          subst hf
          exact h0
  · norm_num [extractGastos, List.filterMap_cons]
    rfl

/-- C7 witness: any gasto produced from the two-cell example grid has a
non-zero monto. -/
theorem matrix_extraction_witness :
    (⟨CategoriaGasto.PEAJE, 50000, "Chile"⟩ : GastoItem).monto ≠ 0 :=
  matrix_extraction.2.1
    [⟨"Chile", "PEAJE", some 50000⟩, ⟨"Chile", "GOMERIA", some 0⟩]
    ⟨CategoriaGasto.PEAJE, 50000, "Chile"⟩
    (by norm_num [extractGastos, List.filterMap_cons]; rfl)

/-- C8: the prompt's date normalization, with the current year as an explicit
input: a two-digit year expands into the 2000s century, an absent year is
replaced by the supplied current year, day and month are zero-padded, and
the prompt's worked examples hold. -/
theorem fecha_normalization :
    (∀ a y : Nat, y < 100 → expandYear a (some y) = 2000 + y) ∧
    (∀ a : Nat, expandYear a none = a) ∧
    (∀ a d m : Nat,
      normalizeFecha a d m none = pad2 d ++ "/" ++ pad2 m ++ "/" ++ toString a) ∧
    (∀ n : Nat, n < 10 → pad2 n = "0" ++ toString n) ∧
    normalizeFecha 2025 2 7 none = "02/07/2025" ∧
    normalizeFecha 2024 24 11 (some 25) = "24/11/2025" := by
  refine ⟨?_, ?_, ?_, ?_, ?_, ?_⟩
  · intro a y hy
    simp [expandYear, hy]
  · intro a
    rfl
  · intro a d m
    rfl
  · intro n hn
    simp [pad2, hn]
  · rfl
  · rfl

/-- C8 witness: "25" expands to 2025, and day 7 is zero-padded. -/
theorem fecha_normalization_witness :
    expandYear 2025 (some 25) = 2000 + 25 ∧ pad2 7 = "0" ++ toString 7 :=
  ⟨fecha_normalization.1 2025 25 (by decide),
   fecha_normalization.2.2.2.1 7 (by decide)⟩

/-- C9: the currency table has exactly the five fixed entries of the app.py
prompt, and every unrecognized country yields a null currency. -/
theorem moneda_inference :
    monedaForPais "Chile" = some "CLP" ∧
    monedaForPais "Argentina" = some "ARS" ∧
    monedaForPais "Brasil" = some "BRL" ∧
    monedaForPais "Perú" = some "PEN" ∧
    monedaForPais "Paraguay" = some "PYG" ∧
    (∀ p : String,
      p ∉ (["Chile", "Argentina", "Brasil", "Perú", "Paraguay"] : List String) →
      monedaForPais p = none) := by
  refine ⟨rfl, rfl, rfl, rfl, rfl, ?_⟩
  intro p hp
  simp only [List.mem_cons, List.not_mem_nil, or_false, not_or] at hp
  obtain ⟨h1, h2, h3, h4, h5⟩ := hp
  simp [monedaForPais, h1, h2, h3, h4, h5]

/-- C9 witness: Bolivia is not in the table and yields null. -/
theorem moneda_inference_witness : monedaForPais "Bolivia" = none :=
  moneda_inference.2.2.2.2.2 "Bolivia" (by decide)

/-- C10: at the /analyze-rendicion endpoint, a successful response never has
a null fecha: when the pipeline record's fecha is null it is replaced by
today's date formatted dd/MM/yyyy, all other fields unchanged; when it is
present the record passes through untouched. -/
theorem rendicion_fecha_filled :
    ∀ (d m y : Nat) (r out : RendicionSchema),
      analyze_rendicion (formatDdMmYyyy d m y) (Except.ok r) = Except.ok out →
      out.fecha.isSome = true ∧
      (r.fecha = none → out = { r with fecha := some (formatDdMmYyyy d m y) }) ∧
      (∀ f, r.fecha = some f → out = r) := by
  intro d m y r out h
  simp only [analyze_rendicion, Except.ok.injEq] at h
  subst h
  cases hf : r.fecha with
  | none => simp [fillFecha, hf]
  | some f => simp [fillFecha, hf]

/-- C10 witness: a record with null fecha leaves the endpoint with fecha set
to the formatted current date and everything else unchanged. -/
theorem rendicion_fecha_filled_witness :
    (⟨none, some (formatDdMmYyyy 12 10 2025), "Ana", [], [], none⟩ : RendicionSchema) =
      { (⟨none, none, "Ana", [], [], none⟩ : RendicionSchema) with
          fecha := some (formatDdMmYyyy 12 10 2025) } :=
  (rendicion_fecha_filled 12 10 2025 ⟨none, none, "Ana", [], [], none⟩
    ⟨none, some (formatDdMmYyyy 12 10 2025), "Ana", [], [], none⟩ rfl).2.1 rfl

end ThnGastos
